import Mathlib

/-
Verification development for the NBER IO digest pipeline (src/digest.py).

The pipeline's core is shallowly embedded below:
- `clean_html` / `fetch_new_io_papers` : the feed normalizer (Step 1);
- `jsonLoads`, the fence regex model and `parse_groq_json`,
  `summarize_with_groq` : the structured extractor (Step 2), with the
  remote chat-completion call abstracted as an oracle argument;
- `main_loop` : the per-paper try/except loop of `main` (Step 4's driver);
- `build_email` : the report composer (Step 3).

Python exceptions are modelled with `Except PyError`; machine-level detail
that the claims do not touch (exception message texts, Python `repr` of
containers, unicode whitespace classes beyond ASCII, html entity decoding)
is modelled by simple faithful-on-ASCII stand-ins, noted at each definition.
-/

/-- Python ASCII whitespace, as stripped by `str.strip()` and matched by the
regex class in the fence pattern (the unicode members of the class, which no
claim touches, are not modelled). -/
def isPySpace (c : Char) : Bool :=
  c = ' ' || c = '\t' || c = '\n' || c = '\r' || c = '\x0b' || c = '\x0c'

/-- JSON inter-token whitespace as accepted by `json.loads`. -/
def isJsonWs (c : Char) : Bool :=
  c = ' ' || c = '\t' || c = '\n' || c = '\r'

/-- Model of Python `str.strip()` (ASCII whitespace). -/
def pyStrip (s : String) : String :=
  String.mk (((s.data.dropWhile isPySpace).reverse.dropWhile isPySpace).reverse)

/-- The opening-brace character, `\x7b`. -/
def lbrace : Char := Char.ofNat 123

/-- The closing-brace character, `\x7d`. -/
def rbrace : Char := Char.ofNat 125

/-- Python values that can come out of `json.loads`; numbers keep their
source lexeme (int/float distinction is irrelevant to every claim). -/
inductive Json where
  | null : Json
  | bool (b : Bool) : Json
  | num (lexeme : String) : Json
  | str (s : String) : Json
  | arr (xs : List Json) : Json
  | obj (kvs : List (String × Json)) : Json

/-- Python `dict` insertion: an existing key keeps its position and gets the
new value, a new key is appended. -/
def dictInsert (kvs : List (String × Json)) (k : String) (v : Json) :
    List (String × Json) :=
  if kvs.any (fun p => p.1 = k) then
    kvs.map (fun p => if p.1 = k then (k, v) else p)
  else kvs ++ [(k, v)]

/-- Python `dict.get` style lookup (keys are unique after `dictInsert`, so
first match is the dict's binding). -/
def dictGet : List (String × Json) → String → Option Json
  | [], _ => none
  | (k', v) :: rest, k => if k' = k then some v else dictGet rest k

/-- Exceptions the embedded code can raise. -/
inductive PyError where
  | parseError      : PyError  -- json.JSONDecodeError
  | modelCallError  : PyError  -- an error from the Groq client call
  | attributeError  : PyError  -- e.g. calling .get on a non-dict value

/-- Message text used for an exception in the orchestrator's log line
(`str(e)`; the concrete wording of Python's messages is abbreviated). -/
def errMsg : PyError → String
  | .parseError => "ParseError"
  | .modelCallError => "ModelCallError"
  | .attributeError => "AttributeError"

/-! ### JSON decoding (`json.loads`) -/

/-- Skip JSON whitespace. -/
def dropWs (cs : List Char) : List Char := cs.dropWhile isJsonWs

/-- Value of a hex digit. -/
def hexVal (c : Char) : Option Nat :=
  if '0' ≤ c ∧ c ≤ '9' then some (c.toNat - 48)
  else if 'a' ≤ c ∧ c ≤ 'f' then some (c.toNat - 87)
  else if 'A' ≤ c ∧ c ≤ 'F' then some (c.toNat - 55)
  else none

/-- Body of a JSON string after the opening quote: consume up to the closing
quote, decoding escapes; raw control characters are rejected (strict mode).
Surrogate-pair combination of consecutive unicode escapes is not modelled. -/
def parseStringAux : List Char → List Char → Option (String × List Char)
  | [], _ => none
  | c :: rest, acc =>
    if c = '"' then some (String.mk acc.reverse, rest)
    else if c = '\\' then
      match rest with
      | [] => none
      | e :: rest2 =>
        if e = '"' then parseStringAux rest2 ('"' :: acc)
        else if e = '\\' then parseStringAux rest2 ('\\' :: acc)
        else if e = '/' then parseStringAux rest2 ('/' :: acc)
        else if e = 'b' then parseStringAux rest2 ('\x08' :: acc)
        else if e = 'f' then parseStringAux rest2 ('\x0c' :: acc)
        else if e = 'n' then parseStringAux rest2 ('\n' :: acc)
        else if e = 'r' then parseStringAux rest2 ('\r' :: acc)
        else if e = 't' then parseStringAux rest2 ('\t' :: acc)
        else if e = 'u' then
          match rest2 with
          | h1 :: h2 :: h3 :: h4 :: rest3 =>
            match hexVal h1, hexVal h2, hexVal h3, hexVal h4 with
            | some a, some b, some c3, some d =>
              parseStringAux rest3
                (Char.ofNat (((a * 16 + b) * 16 + c3) * 16 + d) :: acc)
            | _, _, _, _ => none
          | _ => none
        else none
    else if c.toNat < 32 then none
    else parseStringAux rest (c :: acc)
termination_by structural cs _ => cs

/-- Digit span of a character list. -/
def digitSpan (cs : List Char) : List Char × List Char :=
  (cs.takeWhile Char.isDigit, cs.dropWhile Char.isDigit)

/-- Integer part of a JSON number: `0` or a nonzero digit followed by
digits. -/
def parseIntPart : List Char → Option (List Char × List Char)
  | [] => none
  | c :: rest =>
    if c = '0' then some ([c], rest)
    else if c.isDigit then
      let (ds, rest') := digitSpan rest
      some (c :: ds, rest')
    else none

/-- Optional fraction part `.digits`; when absent or malformed the number
simply ends before it (the regex group is optional). -/
def parseFracPart (cs : List Char) : List Char × List Char :=
  match cs with
  | '.' :: rest =>
    let (ds, rest') := digitSpan rest
    if ds = [] then ([], cs) else ('.' :: ds, rest')
  | _ => ([], cs)

/-- Optional exponent part; when absent or malformed the number ends before
it. -/
def parseExpPart (cs : List Char) : List Char × List Char :=
  match cs with
  | [] => ([], cs)
  | e :: rest =>
    if e = 'e' ∨ e = 'E' then
      let (sign, rest2) :=
        match rest with
        | s :: t => if s = '+' ∨ s = '-' then ([s], t) else (([] : List Char), rest)
        | [] => ([], rest)
      let (ds, rest3) := digitSpan rest2
      if ds = [] then ([], cs) else ((e :: sign) ++ ds, rest3)
    else ([], cs)

/-- A JSON number literal (kept as its lexeme). -/
def parseNumber (cs : List Char) : Option (Json × List Char) :=
  let (sign, cs1) :=
    match cs with
    | c :: t => if c = '-' then (['-'], t) else (([] : List Char), cs)
    | [] => ([], cs)
  match parseIntPart cs1 with
  | none => none
  | some (ip, cs2) =>
    let (fp, cs3) := parseFracPart cs2
    let (ep, cs4) := parseExpPart cs3
    some (.num (String.mk (sign ++ ip ++ fp ++ ep)), cs4)

mutual

/-- One JSON value (fuelled recursive descent; the fuel passed by
`jsonLoads` always suffices). Mirrors Python's scanner: strings, objects,
arrays, the keyword constants including Python's `NaN`/`Infinity`
extensions, and numbers. -/
def parseValue : Nat → List Char → Option (Json × List Char)
  | 0, _ => none
  | fuel + 1, cs =>
    match cs with
    | [] => none
    | c :: rest =>
      if c = '"' then
        match parseStringAux rest [] with
        | some (s, r) => some (.str s, r)
        | none => none
      else if c = lbrace then
        match dropWs rest with
        | c2 :: r2 =>
          if c2 = rbrace then some (.obj [], r2)
          else parseMembers fuel (c2 :: r2) []
        | [] => none
      else if c = '[' then
        match dropWs rest with
        | c2 :: r2 =>
          if c2 = ']' then some (.arr [], r2)
          else parseElems fuel (c2 :: r2) []
        | [] => none
      else if "true".data.isPrefixOf cs then some (.bool true, cs.drop 4)
      else if "false".data.isPrefixOf cs then some (.bool false, cs.drop 5)
      else if "null".data.isPrefixOf cs then some (.null, cs.drop 4)
      else if "NaN".data.isPrefixOf cs then some (.num "NaN", cs.drop 3)
      else if "Infinity".data.isPrefixOf cs then some (.num "Infinity", cs.drop 8)
      else if "-Infinity".data.isPrefixOf cs then some (.num "-Infinity", cs.drop 9)
      else parseNumber cs
termination_by structural fuel _ => fuel

/-- Members of a JSON object after the opening brace (nonempty case): a
quoted key, a colon, a value, then a comma or the closing brace. Duplicate
keys follow `dict` semantics via `dictInsert`. -/
def parseMembers : Nat → List Char → List (String × Json) →
    Option (Json × List Char)
  | 0, _, _ => none
  | fuel + 1, cs, acc =>
    match cs with
    | [] => none
    | c :: rest =>
      if c = '"' then
        match parseStringAux rest [] with
        | some (k, r1) =>
          match dropWs r1 with
          | c2 :: r2 =>
            if c2 = ':' then
              match parseValue fuel (dropWs r2) with
              | some (v, r3) =>
                match dropWs r3 with
                | c3 :: r4 =>
                  if c3 = rbrace then some (.obj (dictInsert acc k v), r4)
                  else if c3 = ',' then
                    parseMembers fuel (dropWs r4) (dictInsert acc k v)
                  else none
                | [] => none
              | none => none
            else none
          | [] => none
        | none => none
      else none

/-- Elements of a JSON array after the opening bracket (nonempty case). -/
def parseElems : Nat → List Char → List Json → Option (Json × List Char)
  | 0, _, _ => none
  | fuel + 1, cs, acc =>
    match parseValue fuel cs with
    | some (v, r1) =>
      match dropWs r1 with
      | c2 :: r2 =>
        if c2 = ']' then some (.arr (acc ++ [v]), r2)
        else if c2 = ',' then parseElems fuel (dropWs r2) (acc ++ [v])
        else none
      | [] => none
    | none => none
termination_by structural fuel _ _ => fuel

end

/-- Model of `json.loads`: one value surrounded by optional whitespace;
anything else (including trailing data) raises the decode error. -/
def jsonLoads (s : String) : Except PyError Json :=
  let cs := dropWs s.data
  match parseValue (2 * cs.length + 2) cs with
  | some (v, rest) =>
    if dropWs rest = [] then .ok v else .error .parseError
  | none => .error .parseError

/-! ### Fence extraction and `parse_groq_json` -/

/-- Triple-backtick delimiter. -/
def ticks : List Char := "```".data

/-- True when a closing fence follows, after regex whitespace: the pattern
tail after the group. -/
def fenceClose (cs : List Char) : Bool :=
  ticks.isPrefixOf (cs.dropWhile isPySpace)

/-- Lazy scan for the group: the shortest body such that a closing
brace followed by a closing fence ends the group (the non-greedy
quantifier of the pattern, with dot matching newlines). -/
def lazyScan : List Char → List Char → Option (List Char)
  | [], _ => none
  | c :: rest, acc =>
    if c = rbrace && fenceClose rest then
      some ((lbrace :: acc.reverse) ++ [rbrace])
    else lazyScan rest (c :: acc)

/-- Match the fence pattern at the head of the text: three backticks, an
optional `json` tag, regex whitespace, then the brace-delimited group. The
optional tag and the whitespace runs are deterministic here because their
backtracking alternatives can never succeed (the next required character is
neither whitespace nor a brace). -/
def fenceMatchAt (cs : List Char) : Option (List Char) :=
  if ticks.isPrefixOf cs then
    let r1 := cs.drop 3
    let r2 := if "json".data.isPrefixOf r1 then r1.drop 4 else r1
    match r2.dropWhile isPySpace with
    | c :: body => if c = lbrace then lazyScan body [] else none
    | [] => none
  else none

/-- Leftmost regex search for the fence pattern, returning group 1. -/
def reSearchFence : List Char → Option (List Char)
  | [] => none
  | c :: rest =>
    match fenceMatchAt (c :: rest) with
    | some g => some g
    | none => reSearchFence rest

/-- The candidate JSON text of `parse_groq_json`: the fenced group when the
pattern matches, else the whole reply stripped. -/
def candidateText (raw_text : String) : String :=
  match reSearchFence raw_text.data with
  | some g => String.mk g
  | none => pyStrip raw_text

/-- Model of `parse_groq_json`: select the candidate text, then decode it
with `json.loads`; nothing is caught here. -/
def parse_groq_json (raw_text : String) : Except PyError Json :=
  jsonLoads (candidateText raw_text)

/-! ### `summarize_with_groq` and the orchestrator loop of `main` -/

/-- A paper record as built by the normalizer. -/
structure PaperRecord where
  title : String
  url : String
  abstract : String

/-- Model of `summarize_with_groq`: the remote chat-completion call is
abstracted as an oracle from the paper to the reply text (or a client
error); its reply is handed to `parse_groq_json` with no handler in
between. -/
def summarize_with_groq (chat : PaperRecord → Except PyError String)
    (paper : PaperRecord) : Except PyError Json :=
  match chat paper with
  | .error e => .error e
  | .ok raw_content => parse_groq_json raw_content

/-- One successful (paper, summary) pair. -/
structure DigestEntry where
  paper : PaperRecord
  summary : Json

/-- The per-paper loop of `main`: invoke the summarizer on each record in
order; a success appends an entry, any exception appends a log line with
the paper's title and continues. Returns (entries, log lines), both in
input order; the loop itself is total, so no exception escapes it. -/
def main_loop (summarize : PaperRecord → Except PyError Json) :
    List PaperRecord → List DigestEntry × List String
  | [] => ([], [])
  | paper :: rest =>
    match summarize paper with
    | .ok summary =>
      let (es, logs) := main_loop summarize rest
      (⟨paper, summary⟩ :: es, logs)
    | .error e =>
      let (es, logs) := main_loop summarize rest
      (es, ("Failed to summarize " ++ paper.title ++ ": " ++ errMsg e) :: logs)

/-! ### The report composer `build_email` -/

/-- Python `str.join`: interleave the separator between the items. -/
def pyJoin (sep : String) : List String → String
  | [] => ""
  | [x] => x
  | x :: y :: rest => x ++ sep ++ pyJoin sep (y :: rest)

/-- Python `repr` of a decoded JSON value (strings quoted); the quote
selection and escaping of `repr`, never exercised by a claim, are
approximated without escaping. -/
def pyReprQ : Json → String
  | .str s => "'" ++ s ++ "'"
  | .null => "None"
  | .bool true => "True"
  | .bool false => "False"
  | .num lexeme => lexeme
  | .arr xs =>
    "[" ++ pyJoin ", " (xs.attach.map (fun x => pyReprQ x.1)) ++ "]"
  | .obj kvs =>
    "\x7b" ++
      pyJoin ", "
        (kvs.attach.map (fun p => "'" ++ p.1.1 ++ "': " ++ pyReprQ p.1.2))
      ++ "\x7d"
termination_by v => sizeOf v
decreasing_by
  · have := List.sizeOf_lt_of_mem x.2
    simp only [Json.arr.sizeOf_spec]
    omega
  · have h1 := List.sizeOf_lt_of_mem p.2
    have h2 : sizeOf p.1.2 < sizeOf p.1 := by
      cases p.1 with
      | mk a b => simp only [Prod.mk.sizeOf_spec]; omega
    simp only [Json.obj.sizeOf_spec]
    omega

/-- Python `str()` of a decoded JSON value, as interpolated into the
f-string lines: a string renders as itself, containers via `repr`. -/
def pyStr : Json → String
  | .str s => s
  | .null => "None"
  | .bool true => "True"
  | .bool false => "False"
  | .num lexeme => lexeme
  | .arr xs => pyReprQ (.arr xs)
  | .obj kvs => pyReprQ (.obj kvs)

/-- The rendered text for one schema field: the dict's value if the key is
present, else the default `"N/A"` (the second argument of `.get`). -/
def fieldStr (kvs : List (String × Json)) (k : String) : String :=
  match dictGet kvs k with
  | some v => pyStr v
  | none => "N/A"

/-- The six f-string lines appended for entry number `i`. -/
def blockLines (i : Nat) (p : PaperRecord) (kvs : List (String × Json)) :
    List String :=
  [toString i ++ ". " ++ p.title,
   "URL: " ++ p.url,
   "Research question: " ++ fieldStr kvs "research_question",
   "Method: " ++ fieldStr kvs "method",
   "Data: " ++ fieldStr kvs "data",
   "Main result: " ++ fieldStr kvs "main_result"]

/-- Lines for one entry: `summary.get` on a non-dict raises. -/
def entryLines (i : Nat) (ps : DigestEntry) : Except PyError (List String) :=
  match ps.summary with
  | .obj kvs => .ok (blockLines i ps.paper kvs)
  | _ => .error .attributeError

/-- The body-line list accumulated by the loop of `build_email`, starting
at entry number `i`: each entry contributes its six lines and then the lone
`"\n"` element. -/
def buildBodyLines (i : Nat) : List DigestEntry → Except PyError (List String)
  | [] => .ok []
  | ps :: rest =>
    match entryLines i ps with
    | .error e => .error e
    | .ok ls =>
      match buildBodyLines (i + 1) rest with
      | .error e => .error e
      | .ok rest' => .ok (ls ++ "\n" :: rest')

/-- The report: subject and body. -/
structure Report where
  subject : String
  body : String

/-- Model of `build_email`: the fixed empty-list report, or the counted
subject and the newline-join of the header line followed by the
accumulated body lines. -/
def build_email (papers_summaries : List DigestEntry) :
    Except PyError Report :=
  if papers_summaries.isEmpty then
    .ok ⟨"NBER IO Digest: No new papers this week",
         "There are no new Industrial Organization papers this week."⟩
  else
    match buildBodyLines 1 papers_summaries with
    | .error e => .error e
    | .ok ls =>
      .ok ⟨"NBER IO Digest: " ++ toString papers_summaries.length ++ " new papers",
           pyJoin "\n"
             ("This week's NBER Industrial Organization papers:\n" :: ls)⟩

/-! ### The feed normalizer -/

mutual

/-- Text fragments of an html string: the maximal runs of characters
outside `<...>` tag tokens, in order, as produced by the html parser's text
events. Entity decoding, comments and doctype handling are not modelled
(no claim exercises them); an unterminated tag at the end is dropped. -/
def htmlSegments : List Char → List Char → List (List Char)
  | [], acc => [acc.reverse]
  | c :: rest, acc =>
    if c = '<' then acc.reverse :: htmlSkipTag rest
    else htmlSegments rest (c :: acc)

/-- Skip to the end of a tag token, then resume collecting text. -/
def htmlSkipTag : List Char → List (List Char)
  | [] => []
  | c :: rest => if c = '>' then htmlSegments rest [] else htmlSkipTag rest

end

/-- Model of `clean_html`: `BeautifulSoup(...).get_text(strip=True)` joins
the text fragments with each fragment stripped of surrounding whitespace. -/
def clean_html (html_text : String) : String :=
  String.join ((htmlSegments html_text.data []).map
    (fun seg => pyStrip (String.mk seg)))

/-- One raw feed entry as handed over by the feed library. -/
structure FeedEntry where
  title : String
  link : String
  summary : String

/-- Model of `fetch_new_io_papers` applied to the entries the feed library
returns: title and link verbatim, summary through `clean_html`. -/
def fetch_new_io_papers (entries : List FeedEntry) : List PaperRecord :=
  entries.map (fun e => ⟨e.title, e.link, clean_html e.summary⟩)

/-- Modelled from the spec: the "visible text" of a summary — tags removed,
text fragments kept verbatim, only surrounding whitespace trimmed. Stated
from the spec's words for comparison with `clean_html`. -/
def visibleTextSpec (html_text : String) : String :=
  pyStrip (String.join ((htmlSegments html_text.data []).map String.mk))

/-! ### Support definitions for the theorems -/

/-- The fixed extraction schema fields, in rendering order. -/
def schemaFields : List String :=
  ["research_question", "method", "data", "main_result"]

/-- Decidable check that a value is a JSON object (a Python dict). -/
def isObj : Json → Bool
  | .obj _ => true
  | _ => false

/-- Every entry of the list carries a dict summary. -/
def allObj (l : List DigestEntry) : Prop :=
  ∀ e ∈ l, ∃ kvs, e.summary = Json.obj kvs

/-- The body lines `build_email` accumulates for a batch whose summaries
are all dicts, starting at entry number `i`. -/
def linesOfBatch (i : Nat) : List DigestEntry → List String
  | [] => []
  | e :: rest =>
    (match e.summary with
     | .obj kvs => blockLines i e.paper kvs
     | _ => []) ++ "\n" :: linesOfBatch (i + 1) rest

/-- The text of one numbered block (its six lines joined by newlines). -/
def blockText (i : Nat) (e : DigestEntry) : String :=
  pyJoin "\n"
    (match e.summary with
     | .obj kvs => blockLines i e.paper kvs
     | _ => [])

/-- The block texts of a batch, numbered from `i`. -/
def blockTexts (i : Nat) : List DigestEntry → List String
  | [] => []
  | e :: rest => blockText i e :: blockTexts (i + 1) rest

/-- The body of a composer result (empty on an exception). -/
def reportBodyOf (x : Except PyError Report) : String :=
  match x with
  | .ok r => r.body
  | .error _ => ""

/-- Split a string at newline characters (the line list of a body). -/
def splitNLAux : List Char → List Char → List String
  | [], acc => [String.mk acc.reverse]
  | c :: rest, acc =>
    if c = '\n' then String.mk acc.reverse :: splitNLAux rest []
    else splitNLAux rest (c :: acc)

/-- The lines of a string. -/
def linesOf (s : String) : List String := splitNLAux s.data []

/-- Whether `pat` occurs as a contiguous substring of `s`. -/
def strContainsAux (pat : List Char) : List Char → Bool
  | [] => pat.isPrefixOf []
  | c :: rest => pat.isPrefixOf (c :: rest) || strContainsAux pat rest

/-- Substring occurrence test on strings. -/
def strContains (s pat : String) : Bool := strContainsAux pat.data s.data

/-- The number of consecutive blank lines immediately before the first line
of `body` that starts with `marker`. -/
def blanksBeforeMarker (body marker : String) : Nat :=
  (((linesOf body).takeWhile
      (fun ln => !(marker.data.isPrefixOf ln.data))).reverse.takeWhile
    (fun ln => ln = "")).length

/-! ### General lemmas -/

theorem pyJoin_cons (sep x : String) (l : List String) (h : l ≠ []) :
    pyJoin sep (x :: l) = x ++ sep ++ pyJoin sep l := by
  cases l with
  | nil => exact absurd rfl h
  | cons y rest => rfl

theorem pyJoin_append (sep : String) (xs ys : List String)
    (hx : xs ≠ []) (hy : ys ≠ []) :
    pyJoin sep (xs ++ ys) = pyJoin sep xs ++ sep ++ pyJoin sep ys := by
  induction xs with
  | nil => exact absurd rfl hx
  | cons x xs ih =>
    cases xs with
    | nil =>
      simpa [pyJoin] using pyJoin_cons sep x ys hy
    | cons x2 xs2 =>
      have hne : x2 :: xs2 ++ ys ≠ [] := by simp
      calc pyJoin sep ((x :: x2 :: xs2) ++ ys)
          = x ++ sep ++ pyJoin sep ((x2 :: xs2) ++ ys) := by
            simpa using pyJoin_cons sep x ((x2 :: xs2) ++ ys) hne
        _ = x ++ sep ++ (pyJoin sep (x2 :: xs2) ++ sep ++ pyJoin sep ys) := by
            rw [ih (by simp)]
        _ = pyJoin sep (x :: x2 :: xs2) ++ sep ++ pyJoin sep ys := by
            simp [pyJoin, String.append_assoc]

theorem main_loop_entries (f : PaperRecord → Except PyError Json)
    (papers : List PaperRecord) :
    (main_loop f papers).1 =
      papers.filterMap (fun p =>
        match f p with
        | .ok s => some ⟨p, s⟩
        | .error _ => none) := by
  induction papers with
  | nil => rfl
  | cons p rest ih =>
    cases h : f p <;> simp [main_loop, h, ih]

theorem main_loop_logs (f : PaperRecord → Except PyError Json)
    (papers : List PaperRecord) (p : PaperRecord) (e : PyError)
    (hmem : p ∈ papers) (herr : f p = .error e) :
    ("Failed to summarize " ++ p.title ++ ": " ++ errMsg e) ∈
      (main_loop f papers).2 := by
  induction papers with
  | nil => cases hmem
  | cons q rest ih =>
    rcases List.mem_cons.mp hmem with h | h
    · subst h
      simp [main_loop, herr]
    · cases hq : f q <;> simp [main_loop, hq, ih h]

theorem buildBodyLines_ok (l : List DigestEntry) (i : Nat) (h : allObj l) :
    buildBodyLines i l = .ok (linesOfBatch i l) := by
  induction l generalizing i with
  | nil => rfl
  | cons e rest ih =>
    obtain ⟨kvs, hk⟩ := h e (List.mem_cons_self e rest)
    have hrest : allObj rest := fun x hx => h x (List.mem_cons_of_mem _ hx)
    simp [buildBodyLines, entryLines, hk, linesOfBatch, ih (i + 1) hrest]

theorem build_email_ok (l : List DigestEntry) (h1 : l ≠ []) (h2 : allObj l) :
    build_email l =
      .ok ⟨"NBER IO Digest: " ++ toString l.length ++ " new papers",
           pyJoin "\n"
             ("This week's NBER Industrial Organization papers:\n" ::
               linesOfBatch 1 l)⟩ := by
  cases l with
  | nil => exact absurd rfl h1
  | cons e rest =>
    simp [build_email, buildBodyLines_ok _ 1 h2]

theorem linesOfBatch_ne_nil (i : Nat) (l : List DigestEntry) (h : l ≠ []) :
    linesOfBatch i l ≠ [] := by
  cases l with
  | nil => exact absurd rfl h
  | cons e rest => simp [linesOfBatch]

theorem blockTexts_ne_nil (i : Nat) (l : List DigestEntry) (h : l ≠ []) :
    blockTexts i l ≠ [] := by
  cases l with
  | nil => exact absurd rfl h
  | cons e rest => simp [blockTexts]

theorem linesOfBatch_cons_obj (i : Nat) (e : DigestEntry)
    (rest : List DigestEntry) (kvs : List (String × Json))
    (hk : e.summary = .obj kvs) :
    linesOfBatch i (e :: rest) =
      blockLines i e.paper kvs ++ "\n" :: linesOfBatch (i + 1) rest := by
  simp only [linesOfBatch, hk]

theorem blockText_obj (i : Nat) (e : DigestEntry)
    (kvs : List (String × Json)) (hk : e.summary = .obj kvs) :
    blockText i e = pyJoin "\n" (blockLines i e.paper kvs) := by
  simp only [blockText, hk]

theorem linesOfBatch_blocks (l : List DigestEntry) (i : Nat)
    (h : l ≠ []) (ho : allObj l) :
    pyJoin "\n" (linesOfBatch i l) =
      pyJoin "\n\n\n" (blockTexts i l) ++ "\n\n" := by
  induction l generalizing i with
  | nil => exact absurd rfl h
  | cons e rest ih =>
    obtain ⟨kvs, hk⟩ := ho e (List.mem_cons_self e rest)
    have hbl : blockLines i e.paper kvs ≠ [] := by simp [blockLines]
    rw [linesOfBatch_cons_obj i e rest kvs hk]
    cases rest with
    | nil =>
      rw [show ("\n" :: linesOfBatch (i + 1) [] : List String) = ["\n"] from by
            simp [linesOfBatch],
          pyJoin_append "\n" _ _ hbl (by simp),
          show blockTexts i [e] = [blockText i e] from by simp [blockTexts],
          blockText_obj i e kvs hk]
      apply String.ext
      simp [pyJoin, String.data_append]
    | cons e2 rest2 =>
      have hrest : allObj (e2 :: rest2) :=
        fun x hx => ho x (List.mem_cons_of_mem _ hx)
      have hR : linesOfBatch (i + 1) (e2 :: rest2) ≠ [] :=
        linesOfBatch_ne_nil _ _ (by simp)
      rw [show (blockLines i e.paper kvs ++
              "\n" :: linesOfBatch (i + 1) (e2 :: rest2)) =
            blockLines i e.paper kvs ++
              (["\n"] ++ linesOfBatch (i + 1) (e2 :: rest2)) from by simp,
          pyJoin_append "\n" _ _ hbl (by simp),
          show (["\n"] ++ linesOfBatch (i + 1) (e2 :: rest2)) =
            "\n" :: linesOfBatch (i + 1) (e2 :: rest2) from rfl,
          pyJoin_cons "\n" "\n" _ hR,
          ih (i + 1) (by simp) hrest,
          show blockTexts i (e :: e2 :: rest2) =
            blockText i e :: blockTexts (i + 1) (e2 :: rest2) from by
              simp [blockTexts],
          pyJoin_cons "\n\n\n" _ _ (blockTexts_ne_nil (i + 1) _ (by simp)),
          blockText_obj i e kvs hk]
      apply String.ext
      simp [String.data_append]

theorem htmlSegments_no_tag (cs : List Char) (acc : List Char)
    (h : ∀ c ∈ cs, c ≠ '<') :
    htmlSegments cs acc = [acc.reverse ++ cs] := by
  induction cs generalizing acc with
  | nil => simp [htmlSegments]
  | cons c rest ih =>
    have hc : c ≠ '<' := h c (List.mem_cons_self c rest)
    have hrest : ∀ x ∈ rest, x ≠ '<' :=
      fun x hx => h x (List.mem_cons_of_mem _ hx)
    simp [htmlSegments, hc, ih (c :: acc) hrest]

theorem clean_html_no_markup (s : String) (h : ∀ c ∈ s.data, c ≠ '<') :
    clean_html s = pyStrip s := by
  unfold clean_html
  rw [htmlSegments_no_tag s.data [] h]
  simp [String.join]

/-! ### Concrete example inputs -/

def exPaper1 : PaperRecord :=
  ⟨"Merger Effects in Airlines", "https://x/1", "We study mergers."⟩

def exPaper2 : PaperRecord := ⟨"Paper Two", "https://x/2", "A2"⟩

def exPaper3 : PaperRecord := ⟨"Paper Three", "https://x/3", "A3"⟩

def exSummary1 : Json :=
  .obj [("research_question", .str "Q1"), ("method", .str "M1"),
        ("data", .str "D1"), ("main_result", .str "R1")]

def exSummary2 : Json :=
  .obj [("research_question", .str "Q2"), ("method", .str "M2"),
        ("data", .str "D2"), ("main_result", .str "R2")]

/-- A demonstration extractor: fails with a model-call error on the second
paper's url, succeeds elsewhere. -/
def exExtract : PaperRecord → Except PyError Json := fun p =>
  if p.url = "https://x/2" then .error .modelCallError
  else .ok (.obj [("research_question", .str p.title)])

def exFencedInner : String :=
  "\x7b\"research_question\": \"Q\", \"method\": \"M\", \"data\": \"D\", \"main_result\": \"R\"\x7d"

def exFenced : String := "```json\n" ++ exFencedInner ++ "\n```"

def exFencedProse : String :=
  "Sure! Here is the JSON you asked for:\n" ++ exFenced ++
    "\nLet me know if you need anything else."

def exBare : String := "  " ++ exFencedInner ++ "\n"

def exSchemaObj : Json :=
  .obj [("research_question", .str "Q"), ("method", .str "M"),
        ("data", .str "D"), ("main_result", .str "R")]

def exUnbalanced : String := "\x7b\"research_question\": \"Q\""

def exTrailing : String := "\x7b\"research_question\": \"Q\"\x7d Hope this helps!"

def exRefusal : String := "I cannot extract fields from this abstract."

def exHtml : String := "Hello <b>world</b>!"

/-! ### The claims -/

/-- C1: the orchestrator loop visits every record in order; a failing
record is logged with its title and skipped, no exception escapes the loop
(it is a total function), and the result list holds exactly the successful
entries in input order. The third conjunct is the three-record scenario:
the second record fails, the result is first-then-third, and the failure
shows up only in the log list. -/
theorem claim_C1 :
    (∀ (extract : PaperRecord → Except PyError Json)
        (papers : List PaperRecord),
      (main_loop extract papers).1 =
        papers.filterMap (fun p =>
          match extract p with
          | .ok s => some ⟨p, s⟩
          | .error _ => none))
    ∧ (∀ (extract : PaperRecord → Except PyError Json)
         (papers : List PaperRecord) (p : PaperRecord) (e : PyError),
        p ∈ papers → extract p = .error e →
        ("Failed to summarize " ++ p.title ++ ": " ++ errMsg e) ∈
          (main_loop extract papers).2)
    ∧ main_loop exExtract [exPaper1, exPaper2, exPaper3] =
        ([⟨exPaper1, .obj [("research_question", .str exPaper1.title)]⟩,
          ⟨exPaper3, .obj [("research_question", .str exPaper3.title)]⟩],
         ["Failed to summarize Paper Two: ModelCallError"]) :=
  ⟨main_loop_entries, main_loop_logs, rfl⟩

/-- Witness for C1 at the three-record scenario: the second record's
failure appears in the log with its title. -/
theorem claim_C1_witness :
    ("Failed to summarize Paper Two: ModelCallError") ∈
      (main_loop exExtract [exPaper1, exPaper2, exPaper3]).2 :=
  claim_C1.2.1 exExtract [exPaper1, exPaper2, exPaper3] exPaper2 .modelCallError
    (List.mem_cons_of_mem _ (List.mem_cons_self _ _)) rfl

/-- C2: the candidate text handed to the JSON decoder is the fenced group
when the fence pattern matches anywhere in the reply, else the whole reply
stripped; consequently an exactly-fenced schema object, a fenced object
surrounded by prose, and bare JSON all parse to the embedded object. -/
theorem claim_C2 :
    (∀ (raw : String) (g : List Char),
      reSearchFence raw.data = some g →
      parse_groq_json raw = jsonLoads (String.mk g))
    ∧ (∀ raw : String,
        reSearchFence raw.data = none →
        parse_groq_json raw = jsonLoads (pyStrip raw))
    ∧ parse_groq_json exFenced = .ok exSchemaObj
    ∧ parse_groq_json exFencedProse = .ok exSchemaObj
    ∧ parse_groq_json exBare = .ok exSchemaObj := by
  refine ⟨?_, ?_, by rfl, by rfl, by rfl⟩
  · intro raw g hg
    unfold parse_groq_json candidateText
    rw [hg]
  · intro raw hg
    unfold parse_groq_json candidateText
    rw [hg]

/-- Witness for C2: the exactly-fenced reply indeed goes through the fenced
group, and the group decodes to the schema object. -/
theorem claim_C2_witness :
    parse_groq_json exFenced = jsonLoads (String.mk exFencedInner.data)
    ∧ jsonLoads (String.mk exFencedInner.data) = .ok exSchemaObj :=
  ⟨claim_C2.1 exFenced exFencedInner.data (by rfl), by rfl⟩

/-- C3: the extractor fails with a parse error exactly when the candidate
text is not valid JSON, the error is propagated (not caught) by
`parse_groq_json` and `summarize_with_groq`, and the decoder's only failure
is the parse error; the concrete conjuncts fail on malformed braces,
trailing prose and a non-JSON refusal text. -/
theorem claim_C3 :
    (∀ (chat : PaperRecord → Except PyError String) (paper : PaperRecord)
        (raw : String),
      chat paper = .ok raw →
      summarize_with_groq chat paper = parse_groq_json raw)
    ∧ (∀ (chat : PaperRecord → Except PyError String) (paper : PaperRecord)
         (e : PyError),
        chat paper = .error e → summarize_with_groq chat paper = .error e)
    ∧ (∀ raw : String, parse_groq_json raw = jsonLoads (candidateText raw))
    ∧ (∀ s : String, (∃ v, jsonLoads s = .ok v) ∨
        jsonLoads s = .error .parseError)
    ∧ parse_groq_json exUnbalanced = .error .parseError
    ∧ parse_groq_json exTrailing = .error .parseError
    ∧ parse_groq_json exRefusal = .error .parseError := by
  refine ⟨?_, ?_, fun raw => rfl, ?_, by rfl, by rfl, by rfl⟩
  · intro chat paper raw h
    unfold summarize_with_groq
    rw [h]
  · intro chat paper e h
    unfold summarize_with_groq
    rw [h]
  · intro s
    unfold jsonLoads
    cases h : parseValue (2 * (dropWs s.data).length + 2) (dropWs s.data) with
    | none => right; simp [h]
    | some p =>
      by_cases hr : dropWs p.2 = []
      · left; exact ⟨p.1, by simp [h, hr]⟩
      · right; simp [h, hr]

/-- Witness for C3: a successful chat reply is handed through unchanged,
at the concrete reply `"null"`. -/
theorem claim_C3_witness :
    summarize_with_groq (fun _ => .ok "null") exPaper1 =
      parse_groq_json "null" :=
  claim_C3.1 (fun _ => .ok "null") exPaper1 "null" rfl

/-- C4: in a rendered block each of the four labeled lines shows the
dict's value when the field is present and the literal `"N/A"` when it is
absent — the placeholder appears for exactly the missing fields. -/
theorem claim_C4 :
    (∀ (p : PaperRecord) (kvs : List (String × Json)),
      build_email [⟨p, .obj kvs⟩] =
        .ok ⟨"NBER IO Digest: " ++ toString (1 : Nat) ++ " new papers",
             pyJoin "\n"
               ["This week's NBER Industrial Organization papers:\n",
                "1. " ++ p.title,
                "URL: " ++ p.url,
                "Research question: " ++ fieldStr kvs "research_question",
                "Method: " ++ fieldStr kvs "method",
                "Data: " ++ fieldStr kvs "data",
                "Main result: " ++ fieldStr kvs "main_result",
                "\n"]⟩)
    ∧ (∀ (kvs : List (String × Json)) (f : String),
        dictGet kvs f = none → fieldStr kvs f = "N/A")
    ∧ (∀ (kvs : List (String × Json)) (f : String) (v : Json),
        dictGet kvs f = some v → fieldStr kvs f = pyStr v)
    ∧ (∀ (kvs : List (String × Json)) (f v : String),
        dictGet kvs f = some (.str v) → fieldStr kvs f = v) := by
  refine ⟨fun p kvs => by rfl, ?_, ?_, ?_⟩
  · intro kvs f h
    simp [fieldStr, h]
  · intro kvs f v h
    simp [fieldStr, h]
  · intro kvs f v h
    simp [fieldStr, h, pyStr]

/-- Witness for C4 on a dict missing `method`, `data` and carrying
`research_question`: the missing field renders the placeholder, the
present one its value. -/
theorem claim_C4_witness :
    fieldStr [("research_question", Json.str "Q"), ("main_result", Json.str "R")]
        "method" = "N/A"
    ∧ fieldStr [("research_question", Json.str "Q"), ("main_result", Json.str "R")]
        "research_question" = "Q" :=
  ⟨claim_C4.2.1 _ "method" (by rfl),
   claim_C4.2.2.2 _ "research_question" "Q" (by rfl)⟩

/-- C5: the empty batch yields the fixed no-new-papers subject and the
fixed single-sentence body; the body carries neither the non-empty header
nor any numbered block. -/
theorem claim_C5 :
    build_email [] =
      .ok ⟨"NBER IO Digest: No new papers this week",
           "There are no new Industrial Organization papers this week."⟩
    ∧ strContains (reportBodyOf (build_email [])) "This week" = false
    ∧ strContains (reportBodyOf (build_email [])) "1. " = false := by
  exact ⟨by rfl, by rfl, by rfl⟩

/-- C6: for a non-empty batch (with dict summaries) the subject counts the
entries and the body is the fixed header line followed by the numbered
blocks in batch order, each block listing title, URL and the four labeled
field lines in the fixed schema order; the block text depends only on the
four field lookups, not on the dict's internal key order. -/
theorem claim_C6 :
    ∀ l : List DigestEntry, l ≠ [] → allObj l →
    build_email l =
      .ok ⟨"NBER IO Digest: " ++ toString l.length ++ " new papers",
           pyJoin "\n"
             ("This week's NBER Industrial Organization papers:\n" ::
               linesOfBatch 1 l)⟩
    ∧ (∀ (i : Nat) (p : PaperRecord) (kvs kvs' : List (String × Json)),
        (∀ f ∈ schemaFields, dictGet kvs f = dictGet kvs' f) →
        blockLines i p kvs = blockLines i p kvs') := by
  intro l h1 h2
  refine ⟨build_email_ok l h1 h2, ?_⟩
  intro i p kvs kvs' hf
  have e1 : fieldStr kvs "research_question" = fieldStr kvs' "research_question" := by
    unfold fieldStr
    rw [hf "research_question" (by simp [schemaFields])]
  have e2 : fieldStr kvs "method" = fieldStr kvs' "method" := by
    unfold fieldStr
    rw [hf "method" (by simp [schemaFields])]
  have e3 : fieldStr kvs "data" = fieldStr kvs' "data" := by
    unfold fieldStr
    rw [hf "data" (by simp [schemaFields])]
  have e4 : fieldStr kvs "main_result" = fieldStr kvs' "main_result" := by
    unfold fieldStr
    rw [hf "main_result" (by simp [schemaFields])]
  simp [blockLines, e1, e2, e3, e4]

/-- Witness for C6 at a concrete singleton batch. -/
theorem claim_C6_witness :
    build_email [⟨exPaper1, exSummary1⟩] =
      .ok ⟨"NBER IO Digest: " ++
             toString ([⟨exPaper1, exSummary1⟩] : List DigestEntry).length ++
             " new papers",
           pyJoin "\n"
             ("This week's NBER Industrial Organization papers:\n" ::
               linesOfBatch 1 [⟨exPaper1, exSummary1⟩])⟩ :=
  (claim_C6 [⟨exPaper1, exSummary1⟩] (by simp)
    (fun e he => by
      rw [List.mem_singleton.mp he]
      exact ⟨_, rfl⟩)).1

/-- C7 counterexample: in the two-entry batch the lines immediately before
the second numbered block are two blank lines, not one — the loop appends
a lone newline element after each block and the join inserts newlines
around it. -/
theorem claim_C7_counterexample :
    blanksBeforeMarker
        (reportBodyOf (build_email [⟨exPaper1, exSummary1⟩, ⟨exPaper2, exSummary2⟩]))
        "2. " = 2
    ∧ blanksBeforeMarker
        (reportBodyOf (build_email [⟨exPaper1, exSummary1⟩, ⟨exPaper2, exSummary2⟩]))
        "2. " ≠ 1 := by
  exact ⟨by rfl, by decide⟩

/-- C7 amended: consecutive numbered blocks in a non-empty body are
separated by exactly two blank lines — the body is the header, a blank
line, the block texts joined by the separator of three newlines, and a
trailing blank line. -/
theorem claim_C7_amended :
    ∀ l : List DigestEntry, l ≠ [] → allObj l →
    reportBodyOf (build_email l) =
      "This week's NBER Industrial Organization papers:\n\n" ++
        pyJoin "\n\n\n" (blockTexts 1 l) ++ "\n\n" := by
  intro l h1 h2
  rw [build_email_ok l h1 h2]
  simp only [reportBodyOf]
  rw [pyJoin_cons "\n" _ _ (linesOfBatch_ne_nil 1 l h1),
      linesOfBatch_blocks l 1 h1 h2]
  apply String.ext
  simp [String.data_append]

/-- Witness for C7 amended at a concrete singleton batch. -/
theorem claim_C7_amended_witness :
    reportBodyOf (build_email [⟨exPaper1, exSummary1⟩]) =
      "This week's NBER Industrial Organization papers:\n\n" ++
        pyJoin "\n\n\n" (blockTexts 1 [⟨exPaper1, exSummary1⟩]) ++ "\n\n" :=
  claim_C7_amended [⟨exPaper1, exSummary1⟩] (by simp)
    (fun e he => by
      rw [List.mem_singleton.mp he]
      exact ⟨_, rfl⟩)

/-- C8 counterexample: `get_text(strip=True)` strips every text fragment,
so the space before the tag in `"Hello <b>world</b>!"` is dropped and the
result differs from the visible text with only surrounding whitespace
trimmed. -/
theorem claim_C8_counterexample :
    clean_html exHtml = "Helloworld!"
    ∧ visibleTextSpec exHtml = "Hello world!"
    ∧ clean_html exHtml ≠ visibleTextSpec exHtml := by
  exact ⟨by rfl, by rfl, by decide⟩

/-- C8 amended: the normalizer removes all tags and strips the surrounding
whitespace of each text fragment between tags before concatenating, so
whitespace adjacent to a tag inside the summary is removed as well; on a
summary with no markup this equals the summary trimmed of surrounding
whitespace, and the fetch step applies exactly this cleaning to each
entry's summary while passing title and link through verbatim. -/
theorem claim_C8_amended :
    (∀ s : String,
      clean_html s =
        String.join ((htmlSegments s.data []).map
          (fun seg => pyStrip (String.mk seg))))
    ∧ (∀ s : String, (∀ c ∈ s.data, c ≠ '<') → clean_html s = pyStrip s)
    ∧ (∀ entries : List FeedEntry,
        fetch_new_io_papers entries =
          entries.map (fun e => ⟨e.title, e.link, clean_html e.summary⟩))
    ∧ clean_html exHtml = "Helloworld!" :=
  ⟨fun s => rfl, clean_html_no_markup, fun entries => rfl, by rfl⟩

/-- Witness for C8 amended: a markup-free padded summary is exactly
stripped. -/
theorem claim_C8_amended_witness :
    clean_html "  We study mergers.  " = pyStrip "  We study mergers.  " :=
  claim_C8_amended.2.1 "  We study mergers.  " (by decide)

/-- C9: the composer is deterministic — two runs on the same entry list
give the same subject and the same body. -/
theorem claim_C9 :
    ∀ (l : List DigestEntry) (r1 r2 : Report),
    build_email l = .ok r1 → build_email l = .ok r2 →
    r1.subject = r2.subject ∧ r1.body = r2.body := by
  intro l r1 r2 h1 h2
  rw [h1] at h2
  injection h2 with h
  rw [h]
  exact ⟨rfl, rfl⟩

/-- Witness for C9 at the empty batch. -/
theorem claim_C9_witness :
    (⟨"NBER IO Digest: No new papers this week",
      "There are no new Industrial Organization papers this week."⟩ : Report).subject =
      (⟨"NBER IO Digest: No new papers this week",
        "There are no new Industrial Organization papers this week."⟩ : Report).subject
    ∧ (⟨"NBER IO Digest: No new papers this week",
        "There are no new Industrial Organization papers this week."⟩ : Report).body =
      (⟨"NBER IO Digest: No new papers this week",
        "There are no new Industrial Organization papers this week."⟩ : Report).body :=
  claim_C9 [] _ _ rfl rfl

/-- C10: `parse_groq_json` performs no mapping check — whatever value the
decoder returns is passed through, including arrays, strings, numbers and
null — and the composer's per-field `.get` on such a non-dict summary
fails with an attribute error. -/
theorem claim_C10 :
    (∀ (raw : String) (v : Json),
      jsonLoads (candidateText raw) = .ok v → parse_groq_json raw = .ok v)
    ∧ parse_groq_json "[1, 2]" = .ok (.arr [.num "1", .num "2"])
    ∧ parse_groq_json "\"hello\"" = .ok (.str "hello")
    ∧ parse_groq_json "42" = .ok (.num "42")
    ∧ parse_groq_json "null" = .ok .null
    ∧ (∀ (p : PaperRecord) (v : Json), isObj v = false →
        build_email [⟨p, v⟩] = .error .attributeError) := by
  refine ⟨fun raw v h => h, by rfl, by rfl, by rfl, by rfl, ?_⟩
  intro p v hv
  cases v <;> simp_all [isObj, build_email, buildBodyLines, entryLines]

/-- Witness for C10: a summary that is a JSON array makes the composer
fail with the attribute error. -/
theorem claim_C10_witness :
    build_email [⟨exPaper1, Json.arr [Json.num "1", Json.num "2"]⟩] =
      .error .attributeError :=
  claim_C10.2.2.2.2.2 exPaper1 (Json.arr [Json.num "1", Json.num "2"]) rfl
